import Mathlib

/-!
Verification of the Owl backend's sandbox lifecycle manager
(`owl-backend/src/services/sandbox-service.ts`) and agentic chat loop
(`ChatService`), as a shallow embedding in Lean.

The lifecycle manager keeps four module/instance-level maps keyed by
session id (`activeSandboxes`, `sandboxIds`, `lastActivityTime`,
`keepAliveIntervals`).  Every method reads and writes only the entries of
the one session it was called for, so the state at one fixed session key is
embedded as a record, and the external E2B port (probe / connect / kill
outcomes) as an oracle record.  `Date.now()` values are passed in as `now`.
Thrown JavaScript errors are `Except.error` carrying the error message.
-/

namespace Owl

/-- Activity kinds, from the backend's `Activity['type']` union. -/
inductive ActKind
  | tool_call
  | terminal
  | file_change
  | preview_ready
  | error
  | sandbox_expired
  deriving DecidableEq, Repr

/-- One broadcast activity event: its kind, the `message`/`output` payload
field, and the `type` payload tag (`"info"`, `"success"`, ... ; `""` when
the payload has no `type` field).  The uuid and timestamp fields of
`Activity` are not modelled: no claim mentions them. -/
structure ActivityEvent where
  kind : ActKind
  message : String
  tag : String
  deriving DecidableEq, Repr

/-- The lifecycle manager's state at one fixed session key: the entries of
`activeSandboxes`, `sandboxIds`, `lastActivityTime` and
`keepAliveIntervals` at that key.  A live `Sandbox` handle is identified by
its `sandboxId` string; `timer` is whether a keep-alive interval is
registered. -/
structure SandboxState where
  active : Option String
  storedId : Option String
  lastActivity : Option Nat
  timer : Bool
  deriving DecidableEq, Repr

/-- Outcomes of the external E2B port: whether the `echo "ping"` probe of
`isSandboxAlive` succeeds on a given sandbox id, whether `Sandbox.connect`
on a stored id succeeds, and whether `sandbox.kill()` succeeds. -/
structure EnvWorld where
  probeAlive : String → Bool
  connectOk : String → Bool
  killOk : String → Bool

/-- `KEEPALIVE_INTERVAL_MS = 5 * 60 * 1000`. -/
def KEEPALIVE_INTERVAL_MS : Nat := 5 * 60 * 1000

/-- `SANDBOX_TIMEOUT_MS = 60 * 60 * 1000` (the one-hour lifetime budget). -/
def SANDBOX_TIMEOUT_MS : Nat := 60 * 60 * 1000

/-- The `sandbox_expired` activity emitted on any detected death. -/
def expiredEvent : ActivityEvent :=
  { kind := .sandbox_expired,
    message := "Sandbox has expired. Click \"Restart Sandbox\" to continue.",
    tag := "" }

/-- `SandboxService.cleanupSandbox`: deletes the key's entries in all three
maps and clears its keep-alive interval if one is registered. -/
def cleanupSandbox (_st : SandboxState) : SandboxState :=
  { active := none, storedId := none, lastActivity := none, timer := false }

/-- External operations issued during an acquisition, in issue order. -/
inductive EnvOp
  | probe (id : String)
  | connect (id : String)
  | create
  deriving DecidableEq, Repr

/-- Result of one lifecycle-manager method call: the returned sandbox id or
the thrown error message, the state after the call, the emitted activities
and the external operations, in order. -/
structure AcqOut where
  result : Except String String
  state : SandboxState
  events : List ActivityEvent
  ops : List EnvOp
  deriving Repr

/-- `SandboxService.getOrCreateSandbox` at one session key.  First the
in-memory cache: a cached handle is probed; alive refreshes
`lastActivityTime` and returns it, dead runs `cleanupSandbox`, emits
`sandbox_expired` and throws `SANDBOX_EXPIRED`.  Otherwise, with a stored
sandbox id, `Sandbox.connect` is attempted and the reconnected handle
probed; success adopts it (cache entry, `lastActivityTime`,
`startKeepAlive`), failure cleans up, emits `sandbox_expired` and throws
`SANDBOX_EXPIRED`.  With no stored id it throws `NO_SANDBOX`.  No branch
calls `Sandbox.create`. -/
def getOrCreateSandbox (w : EnvWorld) (now : Nat) (st : SandboxState) : AcqOut :=
  match st.active with
  | some sb =>
    if w.probeAlive sb then
      { result := .ok sb, state := { st with lastActivity := some now },
        events := [], ops := [.probe sb] }
    else
      { result := .error "SANDBOX_EXPIRED", state := cleanupSandbox st,
        events := [expiredEvent], ops := [.probe sb] }
  | none =>
    match st.storedId with
    | some sid =>
      if w.connectOk sid then
        if w.probeAlive sid then
          { result := .ok sid,
            state := { active := some sid, storedId := some sid,
                       lastActivity := some now, timer := true },
            events := [], ops := [.connect sid, .probe sid] }
        else
          { result := .error "SANDBOX_EXPIRED", state := cleanupSandbox st,
            events := [expiredEvent], ops := [.connect sid, .probe sid] }
      else
        { result := .error "SANDBOX_EXPIRED", state := cleanupSandbox st,
          events := [expiredEvent], ops := [.connect sid] }
    | none =>
      { result := .error "NO_SANDBOX", state := st, events := [], ops := [] }

/-- Result of `SandboxService.keepAlive`: the returned record plus state,
events and external operations. -/
structure KeepAliveOut where
  alive : Bool
  remainingMs : Option Nat
  state : SandboxState
  events : List ActivityEvent
  ops : List EnvOp
  deriving Repr

/-- `SandboxService.keepAlive`.  No cached handle returns `alive: false`
with no side effect.  A live probe sets `lastActivityTime` to `Date.now()`
and computes `remainingMs = max(0, SANDBOX_TIMEOUT_MS - (Date.now() -
lastActive))` where `lastActive` reads back the value just written; the
successive `Date.now()` reads of one call are the same tick `now` here.  A
dead probe runs `cleanupSandbox`, emits `sandbox_expired` and returns
`alive: false`. -/
def keepAlive (w : EnvWorld) (now : Nat) (st : SandboxState) : KeepAliveOut :=
  match st.active with
  | none =>
    { alive := false, remainingMs := none, state := st, events := [], ops := [] }
  | some sb =>
    if w.probeAlive sb then
      let lastActive := now
      { alive := true,
        remainingMs := some (max 0 (SANDBOX_TIMEOUT_MS - (now - lastActive))),
        state := { st with lastActivity := some now },
        events := [], ops := [.probe sb] }
    else
      { alive := false, remainingMs := none, state := cleanupSandbox st,
        events := [expiredEvent], ops := [.probe sb] }

/-- `SandboxService.closeSandbox`.  With no cached handle it returns at
once.  Otherwise it awaits `sandbox.kill()`; on success it deletes only the
`activeSandboxes` entry and emits a `terminal`/`info` activity; a rejected
`kill()` is caught and only logged, so nothing is removed and nothing is
emitted.  No branch touches `sandboxIds`, `lastActivityTime` or the
keep-alive interval. -/
def closeSandbox (w : EnvWorld) (st : SandboxState) :
    SandboxState × List ActivityEvent :=
  match st.active with
  | none => (st, [])
  | some sb =>
    if w.killOk sb then
      ({ st with active := none },
       [{ kind := .terminal, message := "🛑 Sandbox closed", tag := "info" }])
    else
      (st, [])

/-- A state with a live handle, stored id, and running keep-alive timer for
sandbox `"sb0"` — the normal situation after a successful creation. -/
def stLive : SandboxState :=
  { active := some "sb0", storedId := some "sb0",
    lastActivity := some 0, timer := true }

/-- External world where every port call succeeds. -/
def wAllOk : EnvWorld :=
  { probeAlive := fun _ => true, connectOk := fun _ => true,
    killOk := fun _ => true }

/-- External world where every probe fails (a dead environment) but
`Sandbox.connect` and `kill` would succeed. -/
def wDead : EnvWorld :=
  { probeAlive := fun _ => false, connectOk := fun _ => true,
    killOk := fun _ => true }

/-- External world where `sandbox.kill()` rejects and everything else
succeeds. -/
def wKillFails : EnvWorld :=
  { probeAlive := fun _ => true, connectOk := fun _ => true,
    killOk := fun _ => false }

/-- C3: the claim fails on the code.  `closeSandbox` on a session with a
live handle and a running keep-alive timer: when the remote `kill()`
rejects, the handle stays in the table and no activity is emitted (the
error is only logged), and even when `kill()` succeeds the keep-alive
interval and the stored sandbox id are left in place — only the
`activeSandboxes` entry is removed.  The claim says the timer is cancelled,
a Terminal event is emitted, and the handle is removed regardless of
destroy-call success. -/
theorem closeSandbox_keeps_timer_and_handle :
    closeSandbox wKillFails stLive = (stLive, [])
    ∧ (closeSandbox wAllOk stLive).1.active = none
    ∧ (closeSandbox wAllOk stLive).1.timer = true
    ∧ (closeSandbox wAllOk stLive).1.storedId = some "sb0"
    ∧ (closeSandbox wAllOk stLive).2 =
        [{ kind := .terminal, message := "🛑 Sandbox closed", tag := "info" }] :=
  ⟨rfl, rfl, rfl, rfl, rfl⟩

/-- C4, counterexample: a cached handle whose probe fails, while a stored
external identifier exists and `Sandbox.connect` would succeed.  The claim
says reconnection is attempted in this case; the code throws
`SANDBOX_EXPIRED` without ever calling `connect`. -/
theorem acquire_no_reconnect_after_cached_death :
    stLive.storedId = some "sb0"
    ∧ wDead.connectOk "sb0" = true
    ∧ (getOrCreateSandbox wDead 5 stLive).result = .error "SANDBOX_EXPIRED"
    ∧ EnvOp.connect "sb0" ∉ (getOrCreateSandbox wDead 5 stLive).ops := by
  refine ⟨rfl, rfl, rfl, ?_⟩
  decide

/-- C4 as amended: (a) a cached handle whose probe succeeds is returned
with `lastActivityAt` refreshed and the rest of the state unchanged;
(a') a cached handle whose probe fails is discarded (cleanup) and the call
fails with `SANDBOX_EXPIRED` without attempting reconnection; (b) with no
cached handle but a stored identifier, reconnection is attempted and
re-probed, and on success the reconnected handle is adopted as the cached
handle with a fresh keep-alive timer; (b') if connect or the re-probe
fails, the call cleans up and fails with `SANDBOX_EXPIRED`; (c) with
neither a cached handle nor a stored identifier it fails with
`NO_SANDBOX`; and in no case is `Sandbox.create` called. -/
theorem acquire_algorithm_amended (w : EnvWorld) (now : Nat) (st : SandboxState) :
    (∀ sb, st.active = some sb → w.probeAlive sb = true →
      (getOrCreateSandbox w now st).result = .ok sb
      ∧ (getOrCreateSandbox w now st).state =
          { st with lastActivity := some now }
      ∧ (getOrCreateSandbox w now st).events = [])
    ∧ (∀ sb, st.active = some sb → w.probeAlive sb = false →
      (getOrCreateSandbox w now st).result = .error "SANDBOX_EXPIRED"
      ∧ (getOrCreateSandbox w now st).state = cleanupSandbox st
      ∧ (getOrCreateSandbox w now st).ops = [.probe sb])
    ∧ (∀ sid, st.active = none → st.storedId = some sid →
        w.connectOk sid = true → w.probeAlive sid = true →
      (getOrCreateSandbox w now st).result = .ok sid
      ∧ (getOrCreateSandbox w now st).state =
          { active := some sid, storedId := some sid,
            lastActivity := some now, timer := true }
      ∧ (getOrCreateSandbox w now st).ops = [.connect sid, .probe sid])
    ∧ (∀ sid, st.active = none → st.storedId = some sid →
        (w.connectOk sid = false ∨ w.probeAlive sid = false) →
      (getOrCreateSandbox w now st).result = .error "SANDBOX_EXPIRED"
      ∧ (getOrCreateSandbox w now st).state = cleanupSandbox st)
    ∧ (st.active = none → st.storedId = none →
      getOrCreateSandbox w now st =
        { result := .error "NO_SANDBOX", state := st, events := [], ops := [] })
    ∧ EnvOp.create ∉ (getOrCreateSandbox w now st).ops := by
  obtain ⟨a, s, l, t⟩ := st
  refine ⟨?_, ?_, ?_, ?_, ?_, ?_⟩
  · rintro sb rfl hp
    simp [getOrCreateSandbox, hp]
  · rintro sb rfl hp
    simp [getOrCreateSandbox, hp]
  · rintro sid rfl rfl hc hp
    simp [getOrCreateSandbox, hc, hp]
  · rintro sid rfl rfl hcp
    rcases hcp with hc | hp
    · simp [getOrCreateSandbox, hc]
    · rcases Bool.eq_false_or_eq_true (w.connectOk sid) with h | h <;>
        simp [getOrCreateSandbox, h, hp]
  · rintro rfl rfl
    simp [getOrCreateSandbox]
  · dsimp [getOrCreateSandbox]
    rcases a with _ | sb
    · rcases s with _ | sid
      · simp
      · rcases Bool.eq_false_or_eq_true (w.connectOk sid) with h | h <;>
          rcases Bool.eq_false_or_eq_true (w.probeAlive sid) with h2 | h2 <;>
            simp [h, h2]
    · rcases Bool.eq_false_or_eq_true (w.probeAlive sb) with h | h <;> simp [h]

/-- Witness for `acquire_algorithm_amended` at a concrete live state. -/
theorem acquire_algorithm_amended_witness :
    (getOrCreateSandbox wAllOk 7 stLive).result = .ok "sb0"
    ∧ (getOrCreateSandbox wDead 7 stLive).result = .error "SANDBOX_EXPIRED" := by
  have h1 := (acquire_algorithm_amended wAllOk 7 stLive).1 "sb0" rfl rfl
  have h2 := (acquire_algorithm_amended wDead 7 stLive).2.1 "sb0" rfl rfl
  exact ⟨h1.1, h2.1⟩

/-- C5: whenever the death of a cached handle is detected — by the probe in
`getOrCreateSandbox` or the one in `keepAlive` — the stale handle, stored
id and last-activity entries are discarded, the keep-alive timer is
cancelled, exactly one `sandbox_expired` activity is emitted, and a
subsequent acquire for the key fails with `NO_SANDBOX` (emitting nothing
further). -/
theorem expiry_emits_once (w : EnvWorld) (now : Nat) (st : SandboxState)
    (sb : String) (hact : st.active = some sb)
    (hdead : w.probeAlive sb = false) :
    ((getOrCreateSandbox w now st).result = .error "SANDBOX_EXPIRED"
      ∧ (getOrCreateSandbox w now st).state = cleanupSandbox st
      ∧ (getOrCreateSandbox w now st).state.timer = false
      ∧ ((getOrCreateSandbox w now st).events.countP
          (fun e => e.kind == .sandbox_expired)) = 1
      ∧ ∀ w2 now2,
          getOrCreateSandbox w2 now2 (getOrCreateSandbox w now st).state =
            { result := .error "NO_SANDBOX",
              state := (getOrCreateSandbox w now st).state,
              events := [], ops := [] })
    ∧ ((keepAlive w now st).alive = false
      ∧ (keepAlive w now st).state = cleanupSandbox st
      ∧ (keepAlive w now st).state.timer = false
      ∧ ((keepAlive w now st).events.countP
          (fun e => e.kind == .sandbox_expired)) = 1
      ∧ ∀ w2 now2,
          getOrCreateSandbox w2 now2 (keepAlive w now st).state =
            { result := .error "NO_SANDBOX",
              state := (keepAlive w now st).state,
              events := [], ops := [] }) := by
  obtain ⟨a, s, l, t⟩ := st
  cases hact
  refine ⟨⟨?_, ?_, ?_, ?_, ?_⟩, ?_, ?_, ?_, ?_, ?_⟩ <;>
    simp [getOrCreateSandbox, keepAlive, cleanupSandbox, hdead, expiredEvent]

/-- Witness for `expiry_emits_once`: a concrete dead probe on a live
state. -/
theorem expiry_emits_once_witness :
    (getOrCreateSandbox wDead 3 stLive).result = .error "SANDBOX_EXPIRED"
    ∧ ((keepAlive wDead 3 stLive).events.countP
        (fun e => e.kind == .sandbox_expired)) = 1
    ∧ getOrCreateSandbox wAllOk 9 (keepAlive wDead 3 stLive).state =
        { result := .error "NO_SANDBOX",
          state := (keepAlive wDead 3 stLive).state, events := [], ops := [] } := by
  have h := expiry_emits_once wDead 3 stLive "sb0" rfl rfl
  exact ⟨h.1.1, h.2.2.2.2.1, h.2.2.2.2.2 wAllOk 9⟩

/-- C9: `keepAlive` on a key with a cached handle probes it; on success it
refreshes `lastActivityAt` to `now` and returns `alive` with the remaining
lifetime budget measured from the (just-refreshed) last activity — the full
`SANDBOX_TIMEOUT_MS` of 60 minutes; on a failed probe it discards the
handle, emits `sandbox_expired`, and returns `alive: false`. -/
theorem keepAlive_budget (w : EnvWorld) (now : Nat) (st : SandboxState)
    (sb : String) (hact : st.active = some sb) :
    (w.probeAlive sb = true →
      keepAlive w now st =
        { alive := true, remainingMs := some SANDBOX_TIMEOUT_MS,
          state := { st with lastActivity := some now },
          events := [], ops := [.probe sb] })
    ∧ (w.probeAlive sb = false →
      keepAlive w now st =
        { alive := false, remainingMs := none,
          state := cleanupSandbox st,
          events := [expiredEvent], ops := [.probe sb] }) := by
  obtain ⟨a, s, l, t⟩ := st
  cases hact
  constructor
  · intro hp
    simp [keepAlive, hp]
  · intro hp
    simp [keepAlive, hp]

/-- Witness for `keepAlive_budget`: both probe outcomes at the concrete
live state. -/
theorem keepAlive_budget_witness :
    keepAlive wAllOk 11 stLive =
      { alive := true, remainingMs := some SANDBOX_TIMEOUT_MS,
        state := { stLive with lastActivity := some 11 },
        events := [], ops := [.probe "sb0"] }
    ∧ (keepAlive wDead 11 stLive).alive = false := by
  have h1 := (keepAlive_budget wAllOk 11 stLive "sb0" rfl).1 rfl
  have h2 := (keepAlive_budget wDead 11 stLive "sb0" rfl).2 rfl
  exact ⟨h1, by rw [h2]⟩

/-! ### The agentic chat loop (`ChatService`)

`ChatService.chat` builds a message list from the caller's history plus the
new user message and then loops: one `messages.create` call per round trip,
executing each `tool_use` block of the response in order and appending the
assistant turn plus one tool-result turn before the next call, until a
response carries no tool use.  The loop below takes explicit fuel: the
source loop is `while (true)` with no iteration counter, so `none` means
the loop is still running after `fuel` round trips. -/

/-- One content block of an assistant response.  `toolUse` carries the
`path`/`content`/`command` fields of the input record; a field absent from
the model's JSON is `none` (JavaScript `undefined`). -/
inductive Block
  | text (s : String)
  | toolUse (id : String) (name : String)
      (path : Option String) (content : Option String) (command : Option String)
  deriving DecidableEq, Repr

/-- One conversation turn as pushed onto `messages`: a plain user string, an
assistant turn (its content blocks), or a `role: 'user'` turn whose content
is a list of `tool_result` blocks, each a `(tool_use_id, content)` pair. -/
inductive Turn
  | user (content : String)
  | assistant (blocks : List Block)
  | toolResults (results : List (String × String))
  deriving DecidableEq, Repr

/-- The record returned by `sandbox.commands.run`. -/
structure CmdResult where
  stdout : String
  stderr : String
  exitCode : Int
  deriving DecidableEq, Repr

/-- The sandbox service as seen from `ChatService`'s tool executor:
`executeCommand` and `writeFile` either return or throw (`.error msg` is a
thrown `Error(msg)`, e.g. the "No active sandbox" errors or a command
timeout).  Their internal broadcasts are behind this port boundary; the
events modelled in the loop are the ones `ChatService` itself emits. -/
structure ToolWorld where
  runCmd : String → Except String CmdResult
  writeFile : String → String → Except String Unit

/-- Sandbox operations requested during tool execution, in order. -/
inductive SbOp
  | cmd (command : String)
  | write (path : String) (content : String)
  deriving DecidableEq, Repr

/-- Index of the last `'/'` in a character list, if any. -/
def lastSlashIdx : List Char → Option Nat
  | [] => none
  | c :: cs =>
    match lastSlashIdx cs with
    | some i => some (i + 1)
    | none => if c = '/' then some 0 else none

/-- `fullPath.substring(0, fullPath.lastIndexOf('/'))`: the segment before
the last slash, empty when there is no slash (as `substring(0, -1)` is
empty). -/
def parentDir (s : String) : String :=
  match lastSlashIdx s.toList with
  | some i => String.mk (s.toList.take i)
  | none => ""

/-- JavaScript template-literal interpolation of a possibly-undefined
string field. -/
def jsStr (o : Option String) : String := o.getD "undefined"

/-- The result string returned when `write_file` is called with a missing
or empty `content` field. -/
def missingContentMsg : String :=
  "Error: content parameter is required but was missing from tool call. Please retry with the file content."

/-- Result of one `ChatService.executeTool` call: the tool-result string,
the activities `ChatService` emitted, and the sandbox operations requested,
each in order. -/
structure ToolOut where
  result : String
  events : List ActivityEvent
  ops : List SbOp
  deriving DecidableEq, Repr

/-- The `tool_call` activity emitted at the top of `executeTool`. -/
def toolCallEvent (name : String) : ActivityEvent :=
  { kind := .tool_call, message := name, tag := "" }

/-- `ChatService.executeTool`.  A `tool_call` activity is emitted first.
`write_file` with falsy `content` (absent or `""`) returns an error string
without touching the sandbox; otherwise it prefixes the path with
`/home/user/app/`, ensures the parent directory exists via `mkdir -p`,
writes the file, emits `file_change` and returns `Written: <path>`.
`run_command` runs `cd /home/user/app && <command>`; exit code 0 returns
`stdout || 'Command completed'`, any other exit code returns
`Error (exit N): <stderr>`.  An unknown name returns `Unknown tool: <name>`.
Any thrown error is caught, emitted as an `error` activity, and returned as
`Error: <message>` — never rethrown. -/
def executeTool (w : ToolWorld) (name : String)
    (path content command : Option String) : ToolOut :=
  let callEv := toolCallEvent name
  if name = "write_file" then
    match content with
    | none => { result := missingContentMsg, events := [callEv], ops := [] }
    | some c =>
      if c = "" then { result := missingContentMsg, events := [callEv], ops := [] }
      else
        let fullPath := "/home/user/app/" ++ jsStr path
        let dir := parentDir fullPath
        match w.runCmd ("mkdir -p " ++ dir) with
        | .error msg =>
          { result := "Error: " ++ msg,
            events := [callEv, { kind := .error, message := msg, tag := "" }],
            ops := [.cmd ("mkdir -p " ++ dir)] }
        | .ok _ =>
          match w.writeFile fullPath c with
          | .error msg =>
            { result := "Error: " ++ msg,
              events := [callEv, { kind := .error, message := msg, tag := "" }],
              ops := [.cmd ("mkdir -p " ++ dir), .write fullPath c] }
          | .ok _ =>
            { result := "Written: " ++ jsStr path,
              events := [callEv,
                { kind := .file_change, message := jsStr path, tag := "write" }],
              ops := [.cmd ("mkdir -p " ++ dir), .write fullPath c] }
  else if name = "run_command" then
    let full := "cd /home/user/app && " ++ jsStr command
    match w.runCmd full with
    | .error msg =>
      { result := "Error: " ++ msg,
        events := [callEv, { kind := .error, message := msg, tag := "" }],
        ops := [.cmd full] }
    | .ok r =>
      if r.exitCode = 0 then
        { result := if r.stdout = "" then "Command completed" else r.stdout,
          events := [callEv], ops := [.cmd full] }
      else
        { result := "Error (exit " ++ toString r.exitCode ++ "): " ++ r.stderr,
          events := [callEv], ops := [.cmd full] }
  else
    { result := "Unknown tool: " ++ name, events := [callEv], ops := [] }

/-- What one round trip accumulates from `response.content`: the assistant
text (appended to `finalResponse`), the `tool_result` blocks (one per
`tool_use`, in block order), and the events and sandbox operations of the
sequential tool dispatches. -/
structure TurnOut where
  text : String
  results : List (String × String)
  events : List ActivityEvent
  ops : List SbOp
  deriving DecidableEq, Repr

/-- The `for (const block of response.content)` body: blocks are processed
strictly in order; each `tool_use` is executed to completion (its `await`)
before the next block is considered. -/
def processBlocks (w : ToolWorld) : List Block → TurnOut
  | [] => { text := "", results := [], events := [], ops := [] }
  | .text s :: rest =>
    let r := processBlocks w rest
    { r with text := s ++ r.text }
  | .toolUse id name p c cmd :: rest =>
    let out := executeTool w name p c cmd
    let r := processBlocks w rest
    { text := r.text, results := (id, out.result) :: r.results,
      events := out.events ++ r.events, ops := out.ops ++ r.ops }

/-- The loop's running state: the conversation, the accumulated assistant
text, the emitted events and requested sandbox operations, and the number
of completion round trips made so far. -/
structure LoopState where
  messages : List Turn
  finalResponse : String
  events : List ActivityEvent
  ops : List SbOp
  calls : Nat
  deriving DecidableEq, Repr

/-- The `while (true)` loop of `ChatService.chat`, with explicit fuel.
`completion k` is the content of the response to the `k`-th
`messages.create` call.  When a response has no tool use the loop breaks
(the conversation is not extended further); otherwise the assistant turn
and the single tool-result turn are appended and the loop repeats. -/
def chatLoop (w : ToolWorld) (completion : Nat → List Block) :
    Nat → LoopState → Option LoopState
  | 0, _ => none
  | fuel + 1, st =>
    let blocks := completion st.calls
    let pr := processBlocks w blocks
    let st2 : LoopState :=
      { st with finalResponse := st.finalResponse ++ pr.text,
                events := st.events ++ pr.events,
                ops := st.ops ++ pr.ops,
                calls := st.calls + 1 }
    if pr.results.isEmpty then
      some st2
    else
      chatLoop w completion fuel
        { st2 with messages := st2.messages ++ [.assistant blocks, .toolResults pr.results] }

/-- The outcome of `ChatService.chat`: the returned content, the loop's
final state (`none` when the method returned before entering the loop), and
whether `initializeSandbox` was run. -/
structure ChatResult where
  content : String
  loopEnd : Option LoopState
  sandboxInitialized : Bool
  deriving DecidableEq, Repr

/-- The fixed reply when no Anthropic client is configured. -/
def noKeyMsg : String :=
  "Please configure ANTHROPIC_API_KEY to enable AI capabilities."

/-- `ChatService.chat`.  With no client (`ANTHROPIC_API_KEY` unset or
encrypted) it returns the fixed configuration message at once — before
`getSandboxStatus`, `initializeSandbox`, `getFileState`, any
`messages.create` call and any activity emission.  Otherwise the sandbox is
initialized when `getSandboxStatus` reports it inactive (the
initialization's internal file/command traffic is summarized by the
`sandboxInitialized` flag), the message list is built from the history plus
the new user message, and the loop runs; the returned content is
`finalResponse || 'Done! Check the preview.'`. -/
def chat (hasClient sandboxActive : Bool) (w : ToolWorld)
    (completion : Nat → List Block) (fuel : Nat)
    (history : List Turn) (userMessage : String) : Option ChatResult :=
  if hasClient = false then
    some { content := noKeyMsg, loopEnd := none, sandboxInitialized := false }
  else
    let start : LoopState :=
      { messages := history ++ [.user userMessage], finalResponse := "",
        events := [], ops := [], calls := 0 }
    match chatLoop w completion fuel start with
    | none => none
    | some st =>
      some { content :=
               if st.finalResponse = "" then "Done! Check the preview."
               else st.finalResponse,
             loopEnd := some st,
             sandboxInitialized := sandboxActive = false }

/-- Whether a response contains at least one tool invocation. -/
def hasToolUse : List Block → Bool
  | [] => false
  | .text _ :: rest => hasToolUse rest
  | .toolUse _ _ _ _ _ :: _ => true

/-- The `tool_use` ids of a response, in block order. -/
def toolUseIds : List Block → List String
  | [] => []
  | .text _ :: rest => toolUseIds rest
  | .toolUse id _ _ _ _ :: rest => id :: toolUseIds rest

/-- The sandbox operations one block's dispatch requests. -/
def blockOps (w : ToolWorld) : Block → List SbOp
  | .text _ => []
  | .toolUse _ name p c cmd => (executeTool w name p c cmd).ops

theorem processBlocks_results_ids (w : ToolWorld) :
    ∀ blocks : List Block,
      (processBlocks w blocks).results.map Prod.fst = toolUseIds blocks := by
  intro blocks
  induction blocks with
  | nil => rfl
  | cons b rest ih =>
    cases b <;> simp [processBlocks, toolUseIds, ih]

theorem processBlocks_ops_join (w : ToolWorld) :
    ∀ blocks : List Block,
      (processBlocks w blocks).ops = (blocks.map (blockOps w)).flatten := by
  intro blocks
  induction blocks with
  | nil => rfl
  | cons b rest ih =>
    cases b <;> simp [processBlocks, blockOps, ih]

theorem processBlocks_results_ne_nil (w : ToolWorld) :
    ∀ blocks : List Block, hasToolUse blocks = true →
      (processBlocks w blocks).results ≠ [] := by
  intro blocks
  induction blocks with
  | nil => intro h; cases h
  | cons b rest ih =>
    cases b with
    | text s =>
      intro h
      simp only [hasToolUse] at h
      simpa [processBlocks] using ih h
    | toolUse id name p c cmd =>
      intro _
      simp [processBlocks]

theorem chatLoop_runs_forever_of_always_tools (w : ToolWorld)
    (completion : Nat → List Block)
    (h : ∀ k, hasToolUse (completion k) = true) :
    ∀ fuel st, chatLoop w completion fuel st = none := by
  intro fuel
  induction fuel with
  | zero => intro st; rfl
  | succ n ih =>
    intro st
    have hne := processBlocks_results_ne_nil w (completion st.calls) (h st.calls)
    cases hres : (processBlocks w (completion st.calls)).results with
    | nil => exact absurd hres hne
    | cons a l =>
      simp only [chatLoop, hres, List.isEmpty_cons, Bool.false_eq_true,
        if_false]
      exact ih _

/-- A completion stream that requests a `run_command` invocation on every
turn. -/
def compAlwaysTool : Nat → List Block :=
  fun _ => [.toolUse "t1" "run_command" none none (some "false")]

/-- Tool world where every command exits 1 with stderr `sh: false` and
every write succeeds. -/
def wExitOne : ToolWorld :=
  { runCmd := fun _ => .ok { stdout := "", stderr := "sh: false", exitCode := 1 },
    writeFile := fun _ _ => .ok () }

/-- C1: the claim is right and the code is wrong.  The source loop is
`while (true)` with no iteration counter, so when the Completion port
returns at least one tool invocation on every turn, `ChatService.chat`
never returns: for every bound `fuel` on the number of round trips, the
loop is still running.  The spec mandates a static round-trip cap and
itself flags the observed unbounded loop as a latent liveness bug. -/
theorem chat_has_no_roundtrip_cap (w : ToolWorld) (completion : Nat → List Block)
    (h : ∀ k, hasToolUse (completion k) = true) (sandboxActive : Bool)
    (fuel : Nat) (history : List Turn) (userMessage : String) :
    chat true sandboxActive w completion fuel history userMessage = none := by
  have hl := chatLoop_runs_forever_of_always_tools w completion h fuel
    { messages := history ++ [.user userMessage], finalResponse := "",
      events := [], ops := [], calls := 0 }
  simp [chat, hl]

/-- Witness for `chat_has_no_roundtrip_cap`: a concrete always-tool-calling
stream keeps the loop running past any concrete fuel. -/
theorem chat_has_no_roundtrip_cap_witness :
    hasToolUse (compAlwaysTool 0) = true
    ∧ chat true true wExitOne compAlwaysTool 5 [] "build an app" = none :=
  ⟨rfl, chat_has_no_roundtrip_cap wExitOne compAlwaysTool (fun _ => rfl)
    true 5 [] "build an app"⟩

/-- C6: for a turn with M tool invocations the loop produces exactly one
tool-result entry per invocation, keyed by the invocation's id, in request
order; the dispatches run sequentially in block order (the requested
sandbox operations are the concatenation of each block's operations, in
order); and when the turn has at least one invocation the conversation is
extended, before the next completion call, with exactly the assistant turn
followed immediately by the single tool-result turn. -/
theorem tool_result_pairing (w : ToolWorld) (completion : Nat → List Block)
    (fuel : Nat) (st : LoopState) :
    ((processBlocks w (completion st.calls)).results.map Prod.fst
        = toolUseIds (completion st.calls))
    ∧ ((processBlocks w (completion st.calls)).ops
        = ((completion st.calls).map (blockOps w)).flatten)
    ∧ ((processBlocks w (completion st.calls)).results ≠ [] →
        chatLoop w completion (fuel + 1) st =
          chatLoop w completion fuel
            { messages := st.messages
                ++ [.assistant (completion st.calls),
                    .toolResults (processBlocks w (completion st.calls)).results],
              finalResponse :=
                st.finalResponse ++ (processBlocks w (completion st.calls)).text,
              events := st.events ++ (processBlocks w (completion st.calls)).events,
              ops := st.ops ++ (processBlocks w (completion st.calls)).ops,
              calls := st.calls + 1 }) := by
  refine ⟨processBlocks_results_ids w _, processBlocks_ops_join w _, ?_⟩
  intro hne
  cases hres : (processBlocks w (completion st.calls)).results with
  | nil => exact absurd hres hne
  | cons a l =>
    simp only [chatLoop, hres, List.isEmpty_cons, Bool.false_eq_true, if_false]

/-- A completion stream whose first turn carries text and two tool
invocations, and whose second turn is text only. -/
def compTwoTools : Nat → List Block :=
  fun k =>
    if k = 0 then
      [.text "Writing a file, then reading it back.",
       .toolUse "t1" "write_file" (some "a.txt") (some "x") none,
       .toolUse "t2" "run_command" none none (some "cat a.txt")]
    else [.text "Done"]

/-- Tool world where `cat a.txt` prints `x` and everything else
succeeds quietly. -/
def wCat : ToolWorld :=
  { runCmd := fun c =>
      if c = "cd /home/user/app && cat a.txt" then
        .ok { stdout := "x", stderr := "", exitCode := 0 }
      else
        .ok { stdout := "", stderr := "", exitCode := 0 },
    writeFile := fun _ _ => .ok () }

/-- The loop state at entry for a one-message conversation. -/
def start0 : LoopState :=
  { messages := [.user "make files"], finalResponse := "",
    events := [], ops := [], calls := 0 }

/-- Witness for `tool_result_pairing` at a concrete two-invocation turn. -/
theorem tool_result_pairing_witness :
    (processBlocks wCat (compTwoTools 0)).results.map Prod.fst = ["t1", "t2"]
    ∧ chatLoop wCat compTwoTools 2 start0 =
        chatLoop wCat compTwoTools 1
          { messages := start0.messages
              ++ [.assistant (compTwoTools 0),
                  .toolResults (processBlocks wCat (compTwoTools 0)).results],
            finalResponse :=
              start0.finalResponse ++ (processBlocks wCat (compTwoTools 0)).text,
            events := start0.events ++ (processBlocks wCat (compTwoTools 0)).events,
            ops := start0.ops ++ (processBlocks wCat (compTwoTools 0)).ops,
            calls := start0.calls + 1 } := by
  have h := tool_result_pairing wCat compTwoTools 1 start0
  exact ⟨h.1.trans (by decide), h.2.2 (by decide)⟩

/-- Tool world where every command succeeds with empty stdout and every
write succeeds. -/
def wEmptyStdout : ToolWorld :=
  { runCmd := fun _ => .ok { stdout := "", stderr := "", exitCode := 0 },
    writeFile := fun _ _ => .ok () }

/-- C7, counterexample: a command that exits 0 with empty stdout.  The tool
result is the fallback string `Command completed`, not the command's
(empty) stdout, so "returns the command's stdout as its result when the
exit code is 0" fails as stated. -/
theorem run_command_empty_stdout_counterexample :
    wEmptyStdout.runCmd "cd /home/user/app && true"
      = .ok { stdout := "", stderr := "", exitCode := 0 }
    ∧ (executeTool wEmptyStdout "run_command" none none (some "true")).result
        = "Command completed"
    ∧ (executeTool wEmptyStdout "run_command" none none (some "true")).result
        ≠ "" := by
  refine ⟨rfl, rfl, by decide⟩

/-- A completion stream that requests `run_command("false")` on turn 1 and
returns plain text on turn 2. -/
def compFalseThenDone : Nat → List Block :=
  fun k =>
    if k = 0 then [.toolUse "t1" "run_command" none none (some "false")]
    else [.text "done"]

/-- C7 as amended: `run_command` returns the command's stdout when the exit
code is 0 and stdout is non-empty, the fixed fallback `Command completed`
when the exit code is 0 and stdout is empty, and the formatted
`Error (exit N): <stderr>` string otherwise — returned, not thrown; and a
failing invocation does not abort the loop: with a stream whose first turn
runs a command exiting 1, `chat` completes normally after a second
completion round trip, the failure recorded as the tool-result content. -/
theorem run_command_result_amended (w : ToolWorld) (cmd : String) (r : CmdResult)
    (h : w.runCmd ("cd /home/user/app && " ++ cmd) = .ok r) :
    (r.exitCode = 0 → r.stdout ≠ "" →
      (executeTool w "run_command" none none (some cmd)).result = r.stdout)
    ∧ (r.exitCode = 0 → r.stdout = "" →
      (executeTool w "run_command" none none (some cmd)).result
        = "Command completed")
    ∧ (r.exitCode ≠ 0 →
      (executeTool w "run_command" none none (some cmd)).result
        = "Error (exit " ++ toString r.exitCode ++ "): " ++ r.stderr)
    ∧ ((chat true true wExitOne compFalseThenDone 2 [] "please fail").map
        (fun res => (res.content, res.loopEnd.map LoopState.calls))
          = some ("done", some 2))
    ∧ ((chat true true wExitOne compFalseThenDone 2 [] "please fail").bind
        (fun res => res.loopEnd.map LoopState.messages)
          = some [.user "please fail",
              .assistant [.toolUse "t1" "run_command" none none (some "false")],
              .toolResults [("t1", "Error (exit 1): sh: false")]]) := by
  refine ⟨?_, ?_, ?_, by decide, by decide⟩
  · intro he hs
    simp [executeTool, jsStr, h, he, hs]
  · intro he hs
    simp [executeTool, jsStr, h, he, hs]
  · intro he
    simp [executeTool, jsStr, h, he]

/-- Witness for `run_command_result_amended`: the concrete exit-1 world
produces the formatted error string. -/
theorem run_command_result_amended_witness :
    (executeTool wExitOne "run_command" none none (some "false")).result
      = "Error (exit 1): sh: false" := by
  have h := run_command_result_amended wExitOne "false"
    { stdout := "", stderr := "sh: false", exitCode := 1 } rfl
  exact (h.2.2.1 (by decide)).trans (by decide)

/-- C8: `write_file` with non-empty content computes the parent directory
of `/home/user/app/<path>`, ensures it exists with `mkdir -p` before the
write, writes the file, emits a `file_change` activity and reports
`Written: <path>`; with missing or empty content it returns the
`ToolError` message without requesting any sandbox operation. -/
theorem write_file_behavior (w : ToolWorld) (path c : String) (hc : c ≠ "")
    (r : CmdResult)
    (hmk : w.runCmd ("mkdir -p " ++ parentDir ("/home/user/app/" ++ path)) = .ok r)
    (hwr : w.writeFile ("/home/user/app/" ++ path) c = .ok ()) :
    (executeTool w "write_file" (some path) (some c) none).ops =
      [.cmd ("mkdir -p " ++ parentDir ("/home/user/app/" ++ path)),
       .write ("/home/user/app/" ++ path) c]
    ∧ (executeTool w "write_file" (some path) (some c) none).events =
        [toolCallEvent "write_file",
         { kind := .file_change, message := path, tag := "write" }]
    ∧ (executeTool w "write_file" (some path) (some c) none).result
        = "Written: " ++ path
    ∧ executeTool w "write_file" (some path) none none =
        { result := missingContentMsg, events := [toolCallEvent "write_file"],
          ops := [] }
    ∧ executeTool w "write_file" (some path) (some "") none =
        { result := missingContentMsg, events := [toolCallEvent "write_file"],
          ops := [] } := by
  refine ⟨?_, ?_, ?_, rfl, rfl⟩ <;>
    simp [executeTool, jsStr, hc, hmk, hwr]

/-- Witness for `write_file_behavior` at `write_file("hello.txt", "hi")`:
the parent directory is `/home/user/app`, created before the write. -/
theorem write_file_behavior_witness :
    parentDir "/home/user/app/hello.txt" = "/home/user/app"
    ∧ (executeTool wEmptyStdout "write_file" (some "hello.txt") (some "hi") none).ops
        = [.cmd "mkdir -p /home/user/app", .write "/home/user/app/hello.txt" "hi"]
    ∧ (executeTool wEmptyStdout "write_file" (some "hello.txt") (some "hi") none).result
        = "Written: hello.txt" := by
  have h := write_file_behavior wEmptyStdout "hello.txt" "hi" (by decide)
    { stdout := "", stderr := "", exitCode := 0 } rfl rfl
  exact ⟨by decide, h.1.trans (by decide), h.2.2.1.trans (by decide)⟩

/-- C10: with no Anthropic client configured (`ANTHROPIC_API_KEY` unset or
encrypted), `chat` immediately returns the fixed configuration message:
the loop is never entered (zero completion calls), `initializeSandbox`
never runs, no sandbox operation is requested, no activity is emitted, and
the result is independent of the sandbox status, the tool world, the
completion stream, the fuel, the history and the user message — all
lifecycle-manager state is left untouched. -/
theorem chat_no_api_key_frame (sandboxActive : Bool) (w : ToolWorld)
    (completion : Nat → List Block) (fuel : Nat) (history : List Turn)
    (userMessage : String) :
    chat false sandboxActive w completion fuel history userMessage =
      some { content := noKeyMsg, loopEnd := none, sandboxInitialized := false } :=
  rfl

/-! ### Concurrent `createSandbox` calls (C2)

`SandboxService.createSandbox` takes no lock.  Starting from a key with no
sandbox, its `getOrCreateSandbox` check throws `NO_SANDBOX` synchronously
(there is nothing to probe, hence no `await` before the throw), the
"Creating..." broadcast is synchronous, and the task first suspends at
`await Sandbox.create({...})` — before anything is recorded in the maps.
Only when the create resolves are `activeSandboxes`, `sandboxIds` and
`lastActivityTime` set and the keep-alive started.  Each in-flight
invocation is modelled as a task with two atomic segments split at that
`await`; fresh environment ids `e0, e1, ...` are handed out as creates
resolve.  Broadcast events are omitted here; only the count of external
create calls and the returned ids matter to the claim. -/

/-- Program counter of one in-flight `createSandbox` invocation: `start` is
the synchronous prefix up to the `await Sandbox.create` (or an early return
from the short-circuit), `creating` is suspended at that `await`. -/
inductive CreatePC
  | start
  | creating
  | done
  deriving DecidableEq, Repr

/-- One in-flight `createSandbox` caller and the id it returned. -/
structure CreateTask where
  pc : CreatePC
  ret : Option String
  deriving DecidableEq, Repr

/-- The state shared by all callers for one session key: the map entries,
the next fresh environment id, and the number of external `Sandbox.create`
calls issued so far. -/
structure CreateShared where
  st : SandboxState
  nextId : Nat
  createCalls : Nat
  deriving DecidableEq, Repr

/-- One scheduler step of one `createSandbox` task.  From `start`: if the
`getOrCreateSandbox` check returns a handle, that handle's id is returned
(idempotent short-circuit); if it throws, the error is caught, the external
create call is issued, and the task suspends.  From `creating`: the create
resolves with a fresh id, the task stores it in all three map entries,
starts the keep-alive, and returns it. -/
def createStep (w : EnvWorld) (t : CreateTask) (g : CreateShared) :
    CreateTask × CreateShared :=
  match t.pc with
  | .done => (t, g)
  | .start =>
    let a := getOrCreateSandbox w 0 g.st
    match a.result with
    | .ok sb => ({ pc := .done, ret := some sb }, { g with st := a.state })
    | .error _ =>
      ({ pc := .creating, ret := none },
       { g with st := a.state, createCalls := g.createCalls + 1 })
  | .creating =>
    let sb := "e" ++ toString g.nextId
    ({ pc := .done, ret := some sb },
     { st := { active := some sb, storedId := some sb,
               lastActivity := some 0, timer := true },
       nextId := g.nextId + 1, createCalls := g.createCalls })

/-- Two concurrent `createSandbox` callers for the same session key. -/
structure RaceState where
  taskA : CreateTask
  taskB : CreateTask
  shared : CreateShared
  deriving DecidableEq, Repr

/-- Run one step of task A (`false`) or task B (`true`). -/
def raceStep (w : EnvWorld) (r : RaceState) (pick : Bool) : RaceState :=
  if pick then
    let s := createStep w r.taskB r.shared
    { r with taskB := s.1, shared := s.2 }
  else
    let s := createStep w r.taskA r.shared
    { r with taskA := s.1, shared := s.2 }

/-- Run a schedule (a list of task picks). -/
def runRace (w : EnvWorld) : RaceState → List Bool → RaceState
  | r, [] => r
  | r, pick :: rest => runRace w (raceStep w r pick) rest

/-- Both callers at their entry point, no sandbox recorded for the key. -/
def raceStart : RaceState :=
  { taskA := { pc := .start, ret := none },
    taskB := { pc := .start, ret := none },
    shared := { st := { active := none, storedId := none,
                        lastActivity := none, timer := false },
                nextId := 0, createCalls := 0 } }

/-- C2: the claim is right and the code is wrong — creation is not
serialized per session key.  Under the schedule A-check, B-check,
A-create-resolves, B-create-resolves (a real Node interleaving, since each
caller's check prefix is synchronous and each suspends at
`await Sandbox.create` before recording anything), two concurrent
`createSandbox` calls for the same key issue two external create calls and
return different environment ids, the second overwriting the first in the
handle table. -/
theorem createSandbox_race_two_creates :
    (runRace wAllOk raceStart [false, true, false, true]).shared.createCalls = 2
    ∧ (runRace wAllOk raceStart [false, true, false, true]).taskA.ret = some "e0"
    ∧ (runRace wAllOk raceStart [false, true, false, true]).taskB.ret = some "e1"
    ∧ (runRace wAllOk raceStart [false, true, false, true]).taskA.ret
        ≠ (runRace wAllOk raceStart [false, true, false, true]).taskB.ret
    ∧ (runRace wAllOk raceStart [false, true, false, true]).shared.st.active
        = some "e1" := by
  refine ⟨rfl, rfl, rfl, by decide, rfl⟩

end Owl
